import Mathlib

/-!
Verification of the CJK width / grid text-drawing core (`src/ascii/cjk.ts`).

The source module is embedded shallowly:

* a character cell (a JS string) is a `List Nat` of Unicode codepoints;
  the blank cell is the one-character string `" "` (`[0x20]`) and the
  alignment-padding sentinel `CJK_PAD` is `""` (`[0xE000]`);
* the column-major canvas `canvas[x][y]` is a `List (List Cell)`, the
  optional role canvas a `List (List Nat)`;
* the classification predicates `isFullwidthChar`, `isEmojiModifiable`
  and `isZeroWidth` are transcribed range by range;
* `displayWidth` and `drawCJKText` iterate over the codepoint sequence of
  the input string, so the text argument is a `List Nat`; the mutable
  loop state of `drawCJKText` becomes an explicit `DrawState` threaded by
  `List.foldl`;
* the JS coordinates `x`, `y` may be negative, so they are `Int`;
  in-place element assignment becomes `List.set`, which drops updates
  whose index is out of range — on rectangular grids (all columns of the
  height `canvas[0].length` that the source's bounds checks use) this
  agrees with the JS assignment, which is always in range there.
-/

/-- Codepoints that are always two terminal columns wide
(East Asian Width `W`/`F`), transcribed from `isFullwidthChar`. -/
def isFullwidthChar (code : Nat) : Bool :=

    (0x1100 ≤ code && code ≤ 0x115f) ||
    (0x2e80 ≤ code && code ≤ 0x2eff) ||
    (0x2f00 ≤ code && code ≤ 0x2fdf) ||
    (0x3000 ≤ code && code ≤ 0x303f) ||
    (0x3040 ≤ code && code ≤ 0x309f) ||
    (0x30a0 ≤ code && code ≤ 0x30ff) ||
    (0x3100 ≤ code && code ≤ 0x312f) ||
    (0x3130 ≤ code && code ≤ 0x318f) ||
    (0x3190 ≤ code && code ≤ 0x31ff) ||
    (0x3200 ≤ code && code ≤ 0x33ff) ||
    (0x3400 ≤ code && code ≤ 0x4dbf) ||
    (0x4e00 ≤ code && code ≤ 0x9fff) ||
    (0xac00 ≤ code && code ≤ 0xd7af) ||
    (0xf900 ≤ code && code ≤ 0xfaff) ||
    (0xfe30 ≤ code && code ≤ 0xfe4f) ||
    (0xff00 ≤ code && code ≤ 0xff60) ||
    (0xffe0 ≤ code && code ≤ 0xffe6) ||
    code == 0x1f004 || code == 0x1f0cf || code == 0x1f18e ||
    (0x1f191 ≤ code && code ≤ 0x1f19a) ||
    (0x1f1e0 ≤ code && code ≤ 0x1f1ff) ||
    (0x1f200 ≤ code && code ≤ 0x1f202) ||
    (0x1f300 ≤ code && code ≤ 0x1f64f) ||
    (0x1f680 ≤ code && code ≤ 0x1f6ff) ||
    (0x1f900 ≤ code && code ≤ 0x1f9ff) ||
    (0x1fa00 ≤ code && code ≤ 0x1fa6f) ||
    (0x1fa70 ≤ code && code ≤ 0x1faff) ||
    code == 0x231a || code == 0x231b ||
    (0x23e9 ≤ code && code ≤ 0x23ec) ||
    code == 0x23f0 || code == 0x23f3 ||
    code == 0x25fd || code == 0x25fe ||
    code == 0x2614 || code == 0x2615 ||
    (0x2648 ≤ code && code ≤ 0x2653) ||
    code == 0x267f || code == 0x2693 ||
    code == 0x26a1 ||
    code == 0x26aa || code == 0x26ab ||
    code == 0x26bd || code == 0x26be ||
    code == 0x26c4 || code == 0x26c5 ||
    code == 0x26ce || code == 0x26d4 ||
    code == 0x26ea || code == 0x26f2 || code == 0x26f3 ||
    code == 0x26f5 || code == 0x26fa || code == 0x26fd ||
    code == 0x2705 ||
    code == 0x270a || code == 0x270b ||
    code == 0x2728 ||
    code == 0x274c || code == 0x274e ||
    (0x2753 ≤ code && code ≤ 0x2755) ||
    code == 0x2757 ||
    (0x2795 ≤ code && code ≤ 0x2797) ||
    code == 0x27b0 || code == 0x27bf ||
    code == 0x2b1b || code == 0x2b1c ||
    code == 0x2b50 || code == 0x2b55 ||
    code == 0x3030 || code == 0x303d ||
    code == 0x3297 || code == 0x3299 ||
    (0x20000 ≤ code && code ≤ 0x2a6df) ||
    (0x2a700 ≤ code && code ≤ 0x2b73f) ||
    (0x2b740 ≤ code && code ≤ 0x2b81f) ||
    (0x2b820 ≤ code && code ≤ 0x2ceaf) ||
    (0x2ceb0 ≤ code && code ≤ 0x2ebef) ||
    (0x2f800 ≤ code && code ≤ 0x2fa1f) ||
    (0x30000 ≤ code && code ≤ 0x3134f) ||
    (0x31350 ≤ code && code ≤ 0x323af) ||
    (0x2ebf0 ≤ code && code ≤ 0x2f7ff)

/-- Codepoints that are one column by default but become two columns when
followed by the emoji-presentation selector U+FE0F, transcribed from
`isEmojiModifiable`. -/
def isEmojiModifiable (code : Nat) : Bool :=

    code == 0x26a0 ||
    code == 0x2702 ||
    code == 0x2708 || code == 0x2709 ||
    code == 0x270c || code == 0x270d ||
    code == 0x270f || code == 0x2712 ||
    code == 0x2714 || code == 0x2716 ||
    code == 0x271d || code == 0x2721 ||
    code == 0x2733 || code == 0x2734 ||
    code == 0x2744 || code == 0x2747 ||
    code == 0x2763 || code == 0x2764 ||
    code == 0x27a1 ||
    code == 0x2934 || code == 0x2935 ||
    (0x2b05 ≤ code && code ≤ 0x2b07) ||
    code == 0x00a9 ||
    code == 0x00ae ||
    code == 0x2122 ||
    code == 0x2139 ||
    (0x2194 ≤ code && code ≤ 0x2199) ||
    (0x21a9 ≤ code && code ≤ 0x21aa) ||
    code == 0x231a || code == 0x231b ||
    (0x23e9 ≤ code && code ≤ 0x23f3) ||
    (0x23f8 ≤ code && code ≤ 0x23fa) ||
    code == 0x25aa || code == 0x25ab ||
    code == 0x25b6 || code == 0x25c0 ||
    code == 0x25fb || code == 0x25fc ||
    code == 0x2600 || code == 0x2601 ||
    (0x2602 ≤ code && code ≤ 0x2604) ||
    code == 0x260e ||
    code == 0x2611 ||
    (0x2618 ≤ code && code ≤ 0x261d) ||
    code == 0x2620 ||
    code == 0x2622 || code == 0x2623 ||
    code == 0x2626 || code == 0x262a ||
    code == 0x262e || code == 0x262f ||
    (0x2638 ≤ code && code ≤ 0x263a) ||
    code == 0x2640 || code == 0x2642 ||
    (0x2660 ≤ code && code ≤ 0x2668) ||
    code == 0x267b || code == 0x267e

/-- Codepoints of zero display width (variation selectors, joiners,
combining marks), transcribed from `isZeroWidth`. -/
def isZeroWidth (code : Nat) : Bool :=

    (0xfe00 ≤ code && code ≤ 0xfe0f) ||
    code == 0x200b ||
    code == 0x200c ||
    code == 0x200d ||
    code == 0xfeff ||
    (0xe0100 ≤ code && code ≤ 0xe01ef) ||
    (0x0300 ≤ code && code ≤ 0x036f) ||
    (0x0483 ≤ code && code ≤ 0x0489) ||
    (0x0591 ≤ code && code ≤ 0x05bd) ||
    (0x0610 ≤ code && code ≤ 0x061a) ||
    (0x064b ≤ code && code ≤ 0x065f) ||
    (0x20d0 ≤ code && code ≤ 0x20ff)

/-- One loop iteration of `displayWidth`: the state is the accumulated
column count `w` and the `prevWasNarrowEmoji` lookback flag. -/
def widthStep (st : Nat × Bool) (code : Nat) : Nat × Bool :=
  if code = 0xfe0f then
    if st.2 then (st.1 + 1, false) else st
  else if isZeroWidth code then st
  else if isFullwidthChar code then (st.1 + 2, false)
  else (st.1 + 1, isEmojiModifiable code)

/-- Display width of a codepoint sequence in terminal columns,
transcribed from `displayWidth`. -/
def displayWidth (str : List Nat) : Nat :=
  (str.foldl widthStep (0, false)).1

/-- A canvas cell: the codepoint sequence of the stored string. -/
abbrev Cell := List Nat

/-- The blank cell, the one-character string of a space. -/
def blankCell : Cell := [0x20]

/-- The alignment-padding sentinel `""` written into the second
column of a fullwidth character. -/
def CJK_PAD : Cell := [0xE000]

/-- The column-major character grid: `canvas[x][y]` is a cell. -/
abbrev Canvas := List (List Cell)

/-- The optional parallel role grid; roles are modelled as `Nat`. -/
abbrev RoleCanvas := List (List Nat)

/-- Read the cell `g[cx][cy]`; out-of-range reads give the empty string,
matching the `?? ''` fallback at the only unguarded read site. -/
def getCell (g : Canvas) (cx cy : Nat) : Cell :=
  (g.getD cx []).getD cy []

/-- Write the cell `g[cx][cy] = v`; out-of-range writes are dropped
(the source only writes under its own bounds checks). -/
def setCell (g : Canvas) (cx cy : Nat) (v : Cell) : Canvas :=
  g.set cx ((g.getD cx []).set cy v)

/-- Write the role cell `g[cx][cy] = v`. -/
def setRole (g : RoleCanvas) (cx cy : Nat) (v : Nat) : RoleCanvas :=
  g.set cx ((g.getD cx []).set cy v)

/-- The per-cell bounds check `0 <= cx < len && 0 <= y < h` used before
every canvas write. -/
def inGrid (len h : Nat) (cx y : Int) : Bool :=
  decide (0 ≤ cx ∧ cx < (len : Int) ∧ 0 ≤ y ∧ y < (h : Int))

/-- The loop state of `drawCJKText`: the canvas and role canvas being
mutated, the running column `offset`, the column of the last cell this
call actually wrote (`-1` for none), and whether the last processed
character was fullwidth. -/
structure DrawState where
  canvas : Canvas
  roles : Option RoleCanvas
  offset : Nat
  lastWrittenCx : Int
  lastWasFullwidth : Bool
deriving Repr, DecidableEq

/-- The write condition of the normal-glyph path: the target cell
`(x + offset, y)` is in bounds and either `forceOverwrite` is set or the
cell currently holds a blank. -/
def glyphWritable (x y : Int) (h : Nat) (force : Bool) (s : DrawState) : Bool :=
  inGrid s.canvas.length h (x + s.offset) y &&
    (force || decide (getCell s.canvas (x + s.offset).toNat y.toNat = blankCell))

/-- The first statement of the selector branch: append the selector to
the cell `canvas[lastWrittenCx][y]` when that position is in bounds. -/
def appendSel (y : Int) (h : Nat) (s : DrawState) : DrawState :=
  if inGrid s.canvas.length h s.lastWrittenCx y then
    { s with canvas := (setCell s.canvas s.lastWrittenCx.toNat y.toNat
        (getCell s.canvas s.lastWrittenCx.toNat y.toNat ++ [0xfe0f])) }
  else s

/-- The guarded statement `canvas[px][y] = CJK_PAD` used for both
padding-sentinel writes. -/
def padAt (y : Int) (h : Nat) (g : Canvas) (px : Int) : Canvas :=
  if inGrid g.length h px y then setCell g px.toNat y.toNat CJK_PAD else g

/-- The guarded statement `roleCanvas[cx][y] = role` performed after a
successful glyph write. -/
def writeRole (y : Int) (role : Option Nat) (roles : Option RoleCanvas)
    (cx : Int) : Option RoleCanvas :=
  match roles, role with
  | some rg, some rv =>
    if decide (cx < (rg.length : Int) ∧ y < (((rg.headD []).length : Nat) : Int)) then
      some (setRole rg cx.toNat y.toNat rv)
    else some rg
  | _, _ => roles

/-- One loop iteration of `drawCJKText` on codepoint `code`; `h` is the
grid height `canvas[0]?.length ?? 0` computed before the loop. -/
def drawStep (x y : Int) (h : Nat) (force : Bool) (role : Option Nat)
    (s : DrawState) (code : Nat) : DrawState :=
  if code = 0xfe0f then
    -- append the selector to the last cell written by this call,
    -- then, if not already fullwidth, upgrade: pad the next column
    let s1 := appendSel y h s
    if s1.lastWasFullwidth then s1
    else
      { s1 with
        canvas := padAt y h s1.canvas (x + s1.offset),
        offset := s1.offset + 1,
        lastWasFullwidth := true }
  else if isZeroWidth code then s
  else
    let written := glyphWritable x y h force s
    let cx := x + s.offset
    let c1 := if written then setCell s.canvas cx.toNat y.toNat [code] else s.canvas
    let r1 := if written then writeRole y role s.roles cx else s.roles
    let lcx := if written then cx else s.lastWrittenCx
    if isFullwidthChar code then
      { canvas := if written then padAt y h c1 (x + (s.offset + 1)) else c1,
        roles := r1, offset := s.offset + 2,
        lastWrittenCx := lcx, lastWasFullwidth := true }
    else
      { canvas := c1, roles := r1, offset := s.offset + 1,
        lastWrittenCx := lcx, lastWasFullwidth := false }

/-- Draw a codepoint sequence onto the canvas, transcribed from
`drawCJKText`; the whole final loop state is returned so that both the
mutated canvas and the mutated role canvas are observable. -/
def drawCJKText (canvas : Canvas) (x y : Int) (text : List Nat)
    (force : Bool) (roles : Option RoleCanvas) (role : Option Nat) : DrawState :=
  text.foldl (drawStep x y (canvas.headD []).length force role)
    { canvas := canvas, roles := roles, offset := 0,
      lastWrittenCx := -1, lastWasFullwidth := false }

example : displayWidth [0x4e00] = 2 := by decide
example : displayWidth [0x26a0] = 1 := by decide
example : displayWidth [0x26a0, 0xfe0f] = 2 := by decide
example : displayWidth [0x26a0, 0x200b, 0xfe0f] = 2 := by decide
example : displayWidth [0x231a] = 2 := by decide
example : displayWidth [0x48, 0x65, 0x6c, 0x6c, 0x6f, 0x4e2d, 0x6587] = 9 := by decide
example :
    (drawCJKText [[blankCell], [blankCell], [blankCell]] 0 0 [0x4e2d] false none none).canvas
      = [[[0x4e2d]], [CJK_PAD], [blankCell]] := by decide
example :
    (drawCJKText [[blankCell]] 0 0 [0xfe0f] false none none).canvas = [[CJK_PAD]] := by decide
example :
    (drawCJKText [[blankCell], [blankCell]] 0 0 [0x26a0, 0xfe0f] false none none).canvas
      = [[[0x26a0, 0xfe0f]], [CJK_PAD]] := by decide

/-! ## List-level helper lemmas -/

/-- Reading back a just-set element. -/
theorem getD_set_eq {α : Type} (l : List α) (i : Nat) (v d : α) (h : i < l.length) :
    (l.set i v).getD i d = v := by
  simp [List.getD_eq_getElem?_getD, List.getElem?_set_self', List.getElem?_eq_getElem, h]

/-- Setting one index leaves reads at other indices unchanged. -/
theorem getD_set_ne {α : Type} (l : List α) {i j : Nat} (v d : α) (h : i ≠ j) :
    (l.set i v).getD j d = l.getD j d := by
  simp [List.getD_eq_getElem?_getD, List.getElem?_set_ne h]

/-- A doubly indexed read after a doubly indexed write at a different row. -/
theorem getD2_set_ne_row {α : Type} (g : List (List α)) (cx cy px py : Nat) (v d : α)
    (hne : py ≠ cy) :
    (((g.set cx ((g.getD cx []).set cy v)).getD px []).getD py d)
      = ((g.getD px []).getD py d) := by
  by_cases hpx : px = cx
  · subst hpx
    by_cases hlt : px < g.length
    · rw [getD_set_eq _ _ _ _ hlt, getD_set_ne _ _ _ (fun e => hne e.symm)]
    · rw [List.set_eq_of_length_le (Nat.le_of_not_lt hlt)]
  · rw [getD_set_ne _ _ _ (fun e => hpx e.symm)]

/-- A doubly indexed read after a doubly indexed write at a different column. -/
theorem getD2_set_ne_col {α : Type} (g : List (List α)) (cx cy px py : Nat) (v d : α)
    (hne : px ≠ cx) :
    (((g.set cx ((g.getD cx []).set cy v)).getD px []).getD py d)
      = ((g.getD px []).getD py d) := by
  rw [getD_set_ne _ _ _ (fun e => hne e.symm)]

/-- A doubly indexed read after an in-range doubly indexed write at the
same position. -/
theorem getD2_set_eq {α : Type} (g : List (List α)) (cx cy : Nat) (v d : α)
    (h1 : cx < g.length) (h2 : cy < (g.getD cx []).length) :
    (((g.set cx ((g.getD cx []).set cy v)).getD cx []).getD cy d) = v := by
  rw [getD_set_eq _ _ _ _ h1, getD_set_eq _ _ _ _ h2]

/-- After a doubly indexed write, every read sees either the written
value or its old value. -/
theorem getD2_set_or {α : Type} (g : List (List α)) (cx cy px py : Nat) (v d : α) :
    (((g.set cx ((g.getD cx []).set cy v)).getD px []).getD py d) = v ∨
    (((g.set cx ((g.getD cx []).set cy v)).getD px []).getD py d)
      = ((g.getD px []).getD py d) := by
  by_cases hpx : px = cx
  · by_cases hpy : py = cy
    · subst hpx; subst hpy
      by_cases h1 : px < g.length
      · by_cases h2 : py < (g.getD px []).length
        · exact Or.inl (getD2_set_eq g px py v d h1 h2)
        · rw [List.set_eq_of_length_le (Nat.le_of_not_lt h2), getD_set_eq _ _ _ _ h1]
          exact Or.inr rfl
      · rw [List.set_eq_of_length_le (Nat.le_of_not_lt h1)]
        exact Or.inr rfl
    · exact Or.inr (getD2_set_ne_row g cx cy px py v d hpy)
  · exact Or.inr (getD2_set_ne_col g cx cy px py v d hpx)

/-- Setting a cell never changes the number of columns. -/
theorem length_set2 {α : Type} (g : List (List α)) (cx cy : Nat) (v : α) :
    (g.set cx ((g.getD cx []).set cy v)).length = g.length :=
  List.length_set ..

/-- Setting a cell never changes the height of any column. -/
theorem colLength_set2 {α : Type} (g : List (List α)) (cx cy px : Nat) (v : α) :
    ((g.set cx ((g.getD cx []).set cy v)).getD px []).length
      = (g.getD px []).length := by
  by_cases hpx : px = cx
  · subst hpx
    by_cases hlt : px < g.length
    · rw [getD_set_eq _ _ _ _ hlt, List.length_set]
    · rw [List.set_eq_of_length_le (Nat.le_of_not_lt hlt)]
  · rw [getD_set_ne _ _ _ (fun e => hpx e.symm)]

/-- An invariant preserved by every step of a fold is preserved by the
whole fold. -/
theorem foldl_inv {α σ : Type} {f : σ → α → σ} {P : σ → Prop}
    (hstep : ∀ s a, P s → P (f s a)) :
    ∀ (l : List α) (s : σ), P s → P (l.foldl f s) := by
  intro l
  induction l with
  | nil => exact fun s hs => hs
  | cons a t ih => exact fun s hs => ih _ (hstep s a hs)

/-! ## Classification facts -/

/-- A fullwidth codepoint is never classified zero-width. -/
theorem fullwidth_not_zeroWidth (c : Nat) (h : isFullwidthChar c = true) :
    isZeroWidth c = false := by
  rw [← Bool.not_eq_true]
  intro hz
  simp only [isFullwidthChar, Bool.or_eq_true, Bool.and_eq_true, decide_eq_true_eq,
    beq_iff_eq] at h
  simp only [isZeroWidth, Bool.or_eq_true, Bool.and_eq_true, decide_eq_true_eq,
    beq_iff_eq] at hz
  omega

/-- A fullwidth codepoint is never the presentation selector. -/
theorem fullwidth_ne_selector (c : Nat) (h : isFullwidthChar c = true) : c ≠ 0xfe0f := by
  intro he; subst he; exact absurd h (by decide)

/-- An upgrade-eligible codepoint is never classified zero-width. -/
theorem emojiModifiable_not_zeroWidth (c : Nat) (h : isEmojiModifiable c = true) :
    isZeroWidth c = false := by
  rw [← Bool.not_eq_true]
  intro hz
  simp only [isEmojiModifiable, Bool.or_eq_true, Bool.and_eq_true, decide_eq_true_eq,
    beq_iff_eq] at h
  simp only [isZeroWidth, Bool.or_eq_true, Bool.and_eq_true, decide_eq_true_eq,
    beq_iff_eq] at hz
  omega

/-- An upgrade-eligible codepoint is never the presentation selector. -/
theorem emojiModifiable_ne_selector (c : Nat) (h : isEmojiModifiable c = true) :
    c ≠ 0xfe0f := by
  intro he; subst he; exact absurd h (by decide)

/-! ## Width accumulator lemmas -/

/-- A zero-width codepoint other than the selector leaves the whole
accumulator state — including the lookback flag — unchanged. -/
theorem widthStep_zw (st : Nat × Bool) (z : Nat) (hz : isZeroWidth z = true)
    (hzs : z ≠ 0xfe0f) : widthStep st z = st := by
  simp [widthStep, hzs, hz]

/-- An upgrade-eligible codepoint that is not fullwidth adds one column
and sets the lookback flag. -/
theorem widthStep_modifiable (st : Nat × Bool) (c : Nat) (hc : isEmojiModifiable c = true)
    (hcf : isFullwidthChar c = false) : widthStep st c = (st.1 + 1, true) := by
  have h1 : c ≠ 0xfe0f := emojiModifiable_ne_selector c hc
  have h2 : isZeroWidth c = false := emojiModifiable_not_zeroWidth c hc
  simp [widthStep, h1, h2, hcf, hc]

/-! ## Claims about the width accumulator -/

/-- C4 (corrected): a zero-width codepoint other than the presentation
selector contributes 0 columns and leaves the lookback flag unchanged
(the source does not clear it); consequently for an upgrade-eligible
single-width codepoint `c` and a zero-width codepoint `z`, the upgrade
still fires across `z`: `displayWidth [c, z, selector] = 2`, not `1`. -/
theorem zeroWidth_keeps_lookback (c z : Nat) (hc : isEmojiModifiable c = true)
    (hcf : isFullwidthChar c = false) (hz : isZeroWidth z = true) (hzs : z ≠ 0xfe0f) :
    (∀ st : Nat × Bool, widthStep st z = st) ∧ displayWidth [c, z, 0xfe0f] = 2 := by
  refine ⟨fun st => widthStep_zw st z hz hzs, ?_⟩
  unfold displayWidth
  simp only [List.foldl_cons, List.foldl_nil]
  rw [widthStep_modifiable _ c hc hcf, widthStep_zw _ z hz hzs]
  rfl

/-- Witness for `zeroWidth_keeps_lookback` at `c = ⚠`, `z` = zero-width
space. -/
theorem zeroWidth_keeps_lookback_app :
    (∀ st : Nat × Bool, widthStep st 0x200b = st) ∧
      displayWidth [0x26a0, 0x200b, 0xfe0f] = 2 :=
  zeroWidth_keeps_lookback 0x26a0 0x200b (by decide) (by decide) (by decide) (by decide)

/-- C4 counterexample: the claim says a zero-width codepoint clears the
lookback flag, so that the upgrade cannot fire across it and
`displayWidth [⚠, ZWSP, selector]` would be `1`; in the source the flag
survives and the width is `2`. -/
theorem zeroWidth_clears_lookback_ce :
    isEmojiModifiable 0x26a0 = true ∧ isZeroWidth 0x200b = true ∧
      (widthStep (1, true) 0x200b).2 = true ∧
      displayWidth [0x26a0, 0x200b, 0xfe0f] ≠ 1 := by decide

/-- C5 (corrected): inserting a zero-width codepoint other than the
presentation selector U+FE0F anywhere in a string never changes
`displayWidth`. -/
theorem displayWidth_insert_zeroWidth (s1 s2 : List Nat) (z : Nat)
    (hz : isZeroWidth z = true) (hzs : z ≠ 0xfe0f) :
    displayWidth (s1 ++ z :: s2) = displayWidth (s1 ++ s2) := by
  unfold displayWidth
  rw [List.foldl_append, List.foldl_append, List.foldl_cons,
    widthStep_zw _ z hz hzs]

/-- Witness for `displayWidth_insert_zeroWidth`: a ZWJ inserted in the
middle of `"ab"`. -/
theorem displayWidth_insert_zeroWidth_app :
    displayWidth ([0x61] ++ 0x200d :: [0x62]) = displayWidth ([0x61] ++ [0x62]) :=
  displayWidth_insert_zeroWidth [0x61] [0x62] 0x200d (by decide) (by decide)

/-- C5 counterexample: the selector U+FE0F is itself classified
zero-width by `isZeroWidth`, yet inserting it after `⚠` changes
`displayWidth` from 1 to 2. -/
theorem displayWidth_insert_selector_ce :
    isZeroWidth 0xfe0f = true ∧
      displayWidth ([0x26a0] ++ 0xfe0f :: []) ≠ displayWidth ([0x26a0] ++ []) := by decide

/-- C6 (corrected): for an upgrade-eligible codepoint `c` that is not
itself fullwidth, `displayWidth [c, selector] = 2` and
`displayWidth [c] = 1`. -/
theorem modifiable_selector_width (c : Nat) (hc : isEmojiModifiable c = true)
    (hcf : isFullwidthChar c = false) :
    displayWidth [c, 0xfe0f] = 2 ∧ displayWidth [c] = 1 := by
  constructor
  · unfold displayWidth
    simp only [List.foldl_cons, List.foldl_nil]
    rw [widthStep_modifiable _ c hc hcf]
    rfl
  · unfold displayWidth
    simp only [List.foldl_cons, List.foldl_nil]
    rw [widthStep_modifiable _ c hc hcf]

/-- Witness for `modifiable_selector_width` at `c = ⚠`. -/
theorem modifiable_selector_width_app :
    displayWidth [0x26a0, 0xfe0f] = 2 ∧ displayWidth [0x26a0] = 1 :=
  modifiable_selector_width 0x26a0 (by decide) (by decide)

/-- C6 counterexample: `⌚` (U+231A) is upgrade-eligible according to
`isEmojiModifiable`, but it is also fullwidth, so `displayWidth [⌚]` is
`2`, not `1` as the claim states for every upgrade-eligible codepoint. -/
theorem modifiable_fullwidth_overlap_ce :
    isEmojiModifiable 0x231a = true ∧ isFullwidthChar 0x231a = true ∧
      displayWidth [0x231a] ≠ 1 := by decide

/-- C10 (confirmed): the public zero-width predicate classifies the
emoji-presentation selector U+FE0F itself as zero-width, since it lies
in the variation-selector range U+FE00..U+FE0F. -/
theorem isZeroWidth_selector : isZeroWidth 0xfe0f = true := by decide

/-! ## Grid-writer helper lemmas -/

/-- Unpacking a successful bounds check. -/
theorem inGrid_true (len h : Nat) (cx y : Int) (hg : inGrid len h cx y = true) :
    0 ≤ cx ∧ cx < (len : Int) ∧ 0 ≤ y ∧ y < (h : Int) := by
  simpa [inGrid] using hg

/-- When the target row is off the grid, every bounds check fails. -/
theorem inGrid_row_oob (len h : Nat) (cx y : Int) (hy : y < 0 ∨ (h : Int) ≤ y) :
    inGrid len h cx y = false := by
  unfold inGrid
  rw [decide_eq_false_iff_not]
  rintro ⟨-, -, h1, h2⟩
  omega

/-- Unpacking a successful glyph-write condition. -/
theorem glyphWritable_true (x y : Int) (h : Nat) (force : Bool) (s : DrawState)
    (hw : glyphWritable x y h force s = true) :
    inGrid s.canvas.length h (x + s.offset) y = true ∧
      (force = true ∨ getCell s.canvas (x + s.offset).toNat y.toNat = blankCell) := by
  unfold glyphWritable at hw
  rw [Bool.and_eq_true, Bool.or_eq_true, decide_eq_true_eq] at hw
  exact hw

/-- When the target row is off the grid, no glyph write happens. -/
theorem glyphWritable_row_oob (x y : Int) (h : Nat) (force : Bool) (s : DrawState)
    (hy : y < 0 ∨ (h : Int) ≤ y) : glyphWritable x y h force s = false := by
  unfold glyphWritable
  rw [inGrid_row_oob _ _ _ _ hy, Bool.false_and]

/-- `appendSel` only rewrites the canvas. -/
theorem appendSel_fields (y : Int) (h : Nat) (s : DrawState) :
    (appendSel y h s).roles = s.roles ∧ (appendSel y h s).offset = s.offset ∧
      (appendSel y h s).lastWrittenCx = s.lastWrittenCx ∧
      (appendSel y h s).lastWasFullwidth = s.lastWasFullwidth := by
  unfold appendSel
  split <;> exact ⟨rfl, rfl, rfl, rfl⟩

/-- `appendSel` preserves the canvas dimensions. -/
theorem appendSel_shape (y : Int) (h : Nat) (s : DrawState) :
    (appendSel y h s).canvas.length = s.canvas.length ∧
      ∀ i, ((appendSel y h s).canvas.getD i []).length = (s.canvas.getD i []).length := by
  unfold appendSel
  split
  · exact ⟨length_set2 .., fun i => colLength_set2 ..⟩
  · exact ⟨rfl, fun i => rfl⟩

/-- `appendSel` does not touch rows other than `y`. -/
theorem appendSel_row_frame (y : Int) (h : Nat) (s : DrawState) (px py : Nat)
    (hy : (py : Int) ≠ y) :
    getCell (appendSel y h s).canvas px py = getCell s.canvas px py := by
  unfold appendSel
  split
  · next hg =>
    have h0 : 0 ≤ y := (inGrid_true _ _ _ _ hg).2.2.1
    have hne : py ≠ y.toNat := by omega
    exact getD2_set_ne_row _ _ _ _ _ _ _ hne
  · rfl

/-- `appendSel` leaves the canvas unchanged when the row is off-grid. -/
theorem appendSel_row_oob (y : Int) (h : Nat) (s : DrawState)
    (hy : y < 0 ∨ (h : Int) ≤ y) : appendSel y h s = s := by
  unfold appendSel
  rw [inGrid_row_oob _ _ _ _ hy]
  rfl

/-- `padAt` preserves the canvas dimensions. -/
theorem padAt_shape (y : Int) (h : Nat) (g : Canvas) (px : Int) :
    (padAt y h g px).length = g.length ∧
      ∀ i, ((padAt y h g px).getD i []).length = (g.getD i []).length := by
  unfold padAt
  split
  · exact ⟨length_set2 .., fun i => colLength_set2 ..⟩
  · exact ⟨rfl, fun i => rfl⟩

/-- `padAt` does not touch rows other than `y`. -/
theorem padAt_row_frame (y : Int) (h : Nat) (g : Canvas) (p : Int) (px py : Nat)
    (hy : (py : Int) ≠ y) : getCell (padAt y h g p) px py = getCell g px py := by
  unfold padAt
  split
  · next hg =>
    have h0 : 0 ≤ y := (inGrid_true _ _ _ _ hg).2.2.1
    have hne : py ≠ y.toNat := by omega
    exact getD2_set_ne_row _ _ _ _ _ _ _ hne
  · rfl

/-- After `padAt`, every cell holds its old value or the pad sentinel. -/
theorem padAt_or (y : Int) (h : Nat) (g : Canvas) (p : Int) (px py : Nat) :
    getCell (padAt y h g p) px py = getCell g px py ∨
      getCell (padAt y h g p) px py = CJK_PAD := by
  unfold padAt
  split
  · rcases getD2_set_or g p.toNat y.toNat px py CJK_PAD [] with hv | hold
    · exact Or.inr hv
    · exact Or.inl hold
  · exact Or.inl rfl

/-- `padAt` is the identity when the row is off-grid. -/
theorem padAt_row_oob (y : Int) (h : Nat) (g : Canvas) (p : Int)
    (hy : y < 0 ∨ (h : Int) ≤ y) : padAt y h g p = g := by
  unfold padAt
  rw [inGrid_row_oob _ _ _ _ hy]
  rfl

/-- `writeRole` does not touch rows other than `y` (for a non-negative
row, which is guaranteed by the glyph-write bounds check). -/
theorem writeRole_row_frame (y : Int) (role : Option Nat) (roles : Option RoleCanvas)
    (cx : Int) (px py : Nat) (h0 : 0 ≤ y) (hy : (py : Int) ≠ y) :
    (writeRole y role roles cx).map (fun rg => (rg.getD px []).getD py 0)
      = roles.map (fun rg => (rg.getD px []).getD py 0) := by
  have hne : py ≠ y.toNat := by omega
  cases roles with
  | none => rfl
  | some rg =>
    cases role with
    | none => rfl
    | some rv =>
      have hred : writeRole y (some rv) (some rg) cx =
          (if decide (cx < (rg.length : Int) ∧ y < (((rg.headD []).length : Nat) : Int)) then
            some (setRole rg cx.toNat y.toNat rv)
          else some rg) := rfl
      rw [hred]
      split
      · exact congrArg some (getD2_set_ne_row rg cx.toNat y.toNat px py rv 0 hne)
      · rfl

/-- The blank marker and the pad sentinel are distinct cell values. -/
theorem blankCell_ne_pad : blankCell ≠ CJK_PAD := by decide

/-- `setCell` never changes the number of columns. -/
theorem setCell_length (g : Canvas) (cx cy : Nat) (v : Cell) :
    (setCell g cx cy v).length = g.length := length_set2 g cx cy v

/-- `setCell` never changes the height of any column. -/
theorem setCell_colLength (g : Canvas) (cx cy px : Nat) (v : Cell) :
    ((setCell g cx cy v).getD px []).length = (g.getD px []).length :=
  colLength_set2 g cx cy px v

/-- `setCell` leaves other rows unchanged. -/
theorem getCell_setCell_ne_row (g : Canvas) (cx cy px py : Nat) (v : Cell)
    (hne : py ≠ cy) : getCell (setCell g cx cy v) px py = getCell g px py :=
  getD2_set_ne_row g cx cy px py v [] hne

/-- `setCell` leaves other columns unchanged. -/
theorem getCell_setCell_ne_col (g : Canvas) (cx cy px py : Nat) (v : Cell)
    (hne : px ≠ cx) : getCell (setCell g cx cy v) px py = getCell g px py :=
  getD2_set_ne_col g cx cy px py v [] hne

/-- Reading back an in-range `setCell`. -/
theorem getCell_setCell_eq (g : Canvas) (cx cy : Nat) (v : Cell)
    (h1 : cx < g.length) (h2 : cy < (g.getD cx []).length) :
    getCell (setCell g cx cy v) cx cy = v :=
  getD2_set_eq g cx cy v [] h1 h2

/-- After `setCell`, every cell holds the new value or its old value. -/
theorem getCell_setCell_or (g : Canvas) (cx cy px py : Nat) (v : Cell) :
    getCell (setCell g cx cy v) px py = v ∨
      getCell (setCell g cx cy v) px py = getCell g px py :=
  getD2_set_or g cx cy px py v []

/-! ## Branch reduction lemmas for `drawStep` -/

/-- `drawStep` on the presentation selector. -/
theorem drawStep_sel (x y : Int) (h : Nat) (force : Bool) (role : Option Nat)
    (s : DrawState) :
    drawStep x y h force role s 0xfe0f =
      (if (appendSel y h s).lastWasFullwidth then appendSel y h s
       else
        { appendSel y h s with
          canvas := padAt y h (appendSel y h s).canvas (x + (appendSel y h s).offset),
          offset := (appendSel y h s).offset + 1,
          lastWasFullwidth := true }) := rfl

/-- `drawStep` on a non-selector zero-width codepoint is the identity. -/
theorem drawStep_zw (x y : Int) (h : Nat) (force : Bool) (role : Option Nat)
    (s : DrawState) (code : Nat) (hsel : code ≠ 0xfe0f)
    (hzw : isZeroWidth code = true) :
    drawStep x y h force role s code = s := by
  unfold drawStep
  rw [if_neg hsel, if_pos hzw]

/-- `drawStep` on a normal glyph whose write is blocked. -/
theorem drawStep_glyph_blocked (x y : Int) (h : Nat) (force : Bool) (role : Option Nat)
    (s : DrawState) (code : Nat) (hsel : code ≠ 0xfe0f)
    (hzw : isZeroWidth code = false) (hw : glyphWritable x y h force s = false) :
    drawStep x y h force role s code =
      (if isFullwidthChar code then
        { canvas := s.canvas, roles := s.roles, offset := s.offset + 2,
          lastWrittenCx := s.lastWrittenCx, lastWasFullwidth := true }
      else
        { canvas := s.canvas, roles := s.roles, offset := s.offset + 1,
          lastWrittenCx := s.lastWrittenCx, lastWasFullwidth := false }) := by
  have hzw' : ¬ (isZeroWidth code = true) := by rw [hzw]; exact Bool.false_ne_true
  unfold drawStep
  rw [if_neg hsel, if_neg hzw', hw]
  rfl

/-- `drawStep` on a normal glyph whose write succeeds. -/
theorem drawStep_glyph_written (x y : Int) (h : Nat) (force : Bool) (role : Option Nat)
    (s : DrawState) (code : Nat) (hsel : code ≠ 0xfe0f)
    (hzw : isZeroWidth code = false) (hw : glyphWritable x y h force s = true) :
    drawStep x y h force role s code =
      (if isFullwidthChar code then
        { canvas := padAt y h (setCell s.canvas (x + s.offset).toNat y.toNat [code])
            (x + (s.offset + 1)),
          roles := writeRole y role s.roles (x + s.offset), offset := s.offset + 2,
          lastWrittenCx := x + s.offset, lastWasFullwidth := true }
      else
        { canvas := setCell s.canvas (x + s.offset).toNat y.toNat [code],
          roles := writeRole y role s.roles (x + s.offset), offset := s.offset + 1,
          lastWrittenCx := x + s.offset, lastWasFullwidth := false }) := by
  have hzw' : ¬ (isZeroWidth code = true) := by rw [hzw]; exact Bool.false_ne_true
  unfold drawStep
  rw [if_neg hsel, if_neg hzw', hw]
  rfl

/-! ## Per-step invariants of the grid writer -/

/-- One `drawStep` never changes the canvas dimensions. -/
theorem drawStep_shape (x y : Int) (h : Nat) (force : Bool) (role : Option Nat)
    (s : DrawState) (code : Nat) :
    (drawStep x y h force role s code).canvas.length = s.canvas.length ∧
      ∀ i, ((drawStep x y h force role s code).canvas.getD i []).length
        = (s.canvas.getD i []).length := by
  by_cases hsel : code = 0xfe0f
  · subst hsel
    rw [drawStep_sel]
    have ha := appendSel_shape y h s
    split
    · exact ha
    · have hp := padAt_shape y h (appendSel y h s).canvas (x + (appendSel y h s).offset)
      exact ⟨hp.1.trans ha.1, fun i => (hp.2 i).trans (ha.2 i)⟩
  · by_cases hzw : isZeroWidth code = true
    · rw [drawStep_zw x y h force role s code hsel hzw]
      exact ⟨rfl, fun i => rfl⟩
    · have hzw2 : isZeroWidth code = false := by rwa [Bool.not_eq_true] at hzw
      by_cases hw : glyphWritable x y h force s = true
      · rw [drawStep_glyph_written x y h force role s code hsel hzw2 hw]
        split
        · have hp := padAt_shape y h
            (setCell s.canvas (x + s.offset).toNat y.toNat [code]) (x + (s.offset + 1))
          exact ⟨hp.1.trans (setCell_length _ _ _ _),
            fun i => (hp.2 i).trans (setCell_colLength _ _ _ _ _)⟩
        · exact ⟨setCell_length _ _ _ _, fun i => setCell_colLength _ _ _ _ _⟩
      · have hw2 : glyphWritable x y h force s = false := by rwa [Bool.not_eq_true] at hw
        rw [drawStep_glyph_blocked x y h force role s code hsel hzw2 hw2]
        split
        · exact ⟨rfl, fun i => rfl⟩
        · exact ⟨rfl, fun i => rfl⟩

/-- One `drawStep` is a no-op on both grids when the row is off-grid. -/
theorem drawStep_row_oob (x y : Int) (h : Nat) (force : Bool) (role : Option Nat)
    (s : DrawState) (code : Nat) (hy : y < 0 ∨ (h : Int) ≤ y) :
    (drawStep x y h force role s code).canvas = s.canvas ∧
      (drawStep x y h force role s code).roles = s.roles := by
  by_cases hsel : code = 0xfe0f
  · subst hsel
    rw [drawStep_sel, appendSel_row_oob y h s hy]
    split
    · exact ⟨rfl, rfl⟩
    · rw [padAt_row_oob y h s.canvas _ hy]
      exact ⟨rfl, rfl⟩
  · by_cases hzw : isZeroWidth code = true
    · rw [drawStep_zw x y h force role s code hsel hzw]
      exact ⟨rfl, rfl⟩
    · have hzw2 : isZeroWidth code = false := by rwa [Bool.not_eq_true] at hzw
      rw [drawStep_glyph_blocked x y h force role s code hsel hzw2
        (glyphWritable_row_oob x y h force s hy)]
      split
      · exact ⟨rfl, rfl⟩
      · exact ⟨rfl, rfl⟩

/-- One `drawStep` never touches a row other than `y`, in either grid. -/
theorem drawStep_row_frame (x y : Int) (h : Nat) (force : Bool) (role : Option Nat)
    (s : DrawState) (code : Nat) (px py : Nat) (hy : (py : Int) ≠ y) :
    getCell (drawStep x y h force role s code).canvas px py = getCell s.canvas px py ∧
      ((drawStep x y h force role s code).roles.map (fun rg => (rg.getD px []).getD py 0))
        = s.roles.map (fun rg => (rg.getD px []).getD py 0) := by
  by_cases hsel : code = 0xfe0f
  · subst hsel
    rw [drawStep_sel]
    have hroles := (appendSel_fields y h s).1
    split
    · exact ⟨appendSel_row_frame y h s px py hy,
        congrArg (Option.map (fun rg => (rg.getD px []).getD py 0)) hroles⟩
    · exact ⟨(padAt_row_frame y h (appendSel y h s).canvas _ px py hy).trans
          (appendSel_row_frame y h s px py hy),
        congrArg (Option.map (fun rg => (rg.getD px []).getD py 0)) hroles⟩
  · by_cases hzw : isZeroWidth code = true
    · rw [drawStep_zw x y h force role s code hsel hzw]
      exact ⟨rfl, rfl⟩
    · have hzw2 : isZeroWidth code = false := by rwa [Bool.not_eq_true] at hzw
      by_cases hw : glyphWritable x y h force s = true
      · have h0 : 0 ≤ y :=
          (inGrid_true _ _ _ _ (glyphWritable_true x y h force s hw).1).2.2.1
        have hne : py ≠ y.toNat := by omega
        rw [drawStep_glyph_written x y h force role s code hsel hzw2 hw]
        split
        · exact ⟨(padAt_row_frame y h _ _ px py hy).trans
              (getCell_setCell_ne_row s.canvas _ _ px py [code] hne),
            writeRole_row_frame y role s.roles _ px py h0 hy⟩
        · exact ⟨getCell_setCell_ne_row s.canvas _ _ px py [code] hne,
            writeRole_row_frame y role s.roles _ px py h0 hy⟩
      · have hw2 : glyphWritable x y h force s = false := by rwa [Bool.not_eq_true] at hw
        rw [drawStep_glyph_blocked x y h force role s code hsel hzw2 hw2]
        split
        · exact ⟨rfl, rfl⟩
        · exact ⟨rfl, rfl⟩

/-- The overwrite-protection invariant of a draw with `forceOverwrite`
disabled: every cell that was non-blank before the call is either still
intact or holds the pad sentinel, and the last-written column (when set)
points at a cell that was blank before the call. -/
def NoClobber (c0 : Canvas) (y : Int) (s : DrawState) : Prop :=
  (∀ px py, getCell c0 px py ≠ blankCell →
    getCell s.canvas px py = getCell c0 px py ∨ getCell s.canvas px py = CJK_PAD) ∧
  (0 ≤ s.lastWrittenCx → getCell c0 s.lastWrittenCx.toNat y.toNat = blankCell)

/-- The selector append preserves the overwrite-protection invariant:
it only rewrites the cell at `lastWrittenCx`, which was blank before the
call. -/
theorem appendSel_noClobber (c0 : Canvas) (y : Int) (h : Nat) (s : DrawState)
    (hs : NoClobber c0 y s) : NoClobber c0 y (appendSel y h s) := by
  unfold appendSel
  split
  · next hg =>
    have hb := inGrid_true _ _ _ _ hg
    have hblank : getCell c0 s.lastWrittenCx.toNat y.toNat = blankCell := hs.2 hb.1
    refine ⟨?_, hs.2⟩
    intro px py hpre
    by_cases hpx : px = s.lastWrittenCx.toNat
    · by_cases hpy : py = y.toNat
      · subst hpx; subst hpy
        exact absurd hblank hpre
      · rcases hs.1 px py hpre with h1 | h1
        · exact Or.inl ((getCell_setCell_ne_row s.canvas _ _ px py _ hpy).trans h1)
        · exact Or.inr ((getCell_setCell_ne_row s.canvas _ _ px py _ hpy).trans h1)
    · rcases hs.1 px py hpre with h1 | h1
      · exact Or.inl ((getCell_setCell_ne_col s.canvas _ _ px py _ hpx).trans h1)
      · exact Or.inr ((getCell_setCell_ne_col s.canvas _ _ px py _ hpx).trans h1)
  · exact hs

/-- One `drawStep` with `forceOverwrite` disabled preserves the
overwrite-protection invariant. -/
theorem drawStep_noClobber (c0 : Canvas) (x y : Int) (h : Nat) (role : Option Nat)
    (s : DrawState) (code : Nat) (hs : NoClobber c0 y s) :
    NoClobber c0 y (drawStep x y h false role s code) := by
  by_cases hsel : code = 0xfe0f
  · subst hsel
    rw [drawStep_sel]
    have ha := appendSel_noClobber c0 y h s hs
    split
    · exact ha
    · refine ⟨?_, fun h0 => ha.2 h0⟩
      intro px py hpre
      rcases padAt_or y h (appendSel y h s).canvas (x + (appendSel y h s).offset) px py
        with h1 | h1
      · rcases ha.1 px py hpre with h2 | h2
        · exact Or.inl (h1.trans h2)
        · exact Or.inr (h1.trans h2)
      · exact Or.inr h1
  · by_cases hzw : isZeroWidth code = true
    · rw [drawStep_zw x y h false role s code hsel hzw]
      exact hs
    · have hzw2 : isZeroWidth code = false := by rwa [Bool.not_eq_true] at hzw
      by_cases hw : glyphWritable x y h false s = true
      · have hgw := glyphWritable_true x y h false s hw
        have hsblank : getCell s.canvas (x + s.offset).toNat y.toNat = blankCell := by
          rcases hgw.2 with hf | hb2
          · exact absurd hf (by decide)
          · exact hb2
        have hc0blank : getCell c0 (x + s.offset).toNat y.toNat = blankCell := by
          by_contra hne
          rcases hs.1 _ _ hne with h1 | h1
          · rw [hsblank] at h1
            exact hne h1.symm
          · rw [hsblank] at h1
            exact blankCell_ne_pad h1
        rw [drawStep_glyph_written x y h false role s code hsel hzw2 hw]
        have hmain : ∀ px py, getCell c0 px py ≠ blankCell →
            getCell (setCell s.canvas (x + s.offset).toNat y.toNat [code]) px py
              = getCell c0 px py ∨
            getCell (setCell s.canvas (x + s.offset).toNat y.toNat [code]) px py
              = CJK_PAD := by
          intro px py hpre
          by_cases hpx : px = (x + s.offset).toNat
          · by_cases hpy : py = y.toNat
            · subst hpx; subst hpy
              exact absurd hc0blank hpre
            · rcases hs.1 px py hpre with h1 | h1
              · exact Or.inl ((getCell_setCell_ne_row s.canvas _ _ px py _ hpy).trans h1)
              · exact Or.inr ((getCell_setCell_ne_row s.canvas _ _ px py _ hpy).trans h1)
          · rcases hs.1 px py hpre with h1 | h1
            · exact Or.inl ((getCell_setCell_ne_col s.canvas _ _ px py _ hpx).trans h1)
            · exact Or.inr ((getCell_setCell_ne_col s.canvas _ _ px py _ hpx).trans h1)
        split
        · refine ⟨?_, fun h0 => hc0blank⟩
          intro px py hpre
          rcases padAt_or y h _ (x + (s.offset + 1)) px py with h1 | h1
          · rcases hmain px py hpre with h2 | h2
            · exact Or.inl (h1.trans h2)
            · exact Or.inr (h1.trans h2)
          · exact Or.inr h1
        · exact ⟨hmain, fun h0 => hc0blank⟩
      · have hw2 : glyphWritable x y h false s = false := by rwa [Bool.not_eq_true] at hw
        rw [drawStep_glyph_blocked x y h false role s code hsel hzw2 hw2]
        split
        · exact ⟨hs.1, hs.2⟩
        · exact ⟨hs.1, hs.2⟩

/-- A whole draw with `forceOverwrite` disabled satisfies the
overwrite-protection invariant. -/
theorem drawCJKText_noClobber (canvas : Canvas) (x y : Int) (text : List Nat)
    (roles : Option RoleCanvas) (role : Option Nat) :
    NoClobber canvas y (drawCJKText canvas x y text false roles role) := by
  unfold drawCJKText
  exact @foldl_inv Nat DrawState (drawStep x y (canvas.headD []).length false role)
    (NoClobber canvas y)
    (fun s a hs => drawStep_noClobber canvas x y (canvas.headD []).length role s a hs)
    text (DrawState.mk canvas roles 0 (-1) false)
    ⟨fun px py hpre => Or.inl rfl, fun h0 => absurd h0 (show ¬ (0 : Int) ≤ -1 by decide)⟩

/-! ## Claims about the grid writer -/

/-- C1 (corrected): in the normal-glyph path the pad cell of a fullwidth
glyph is written exactly when the glyph cell itself was written: if the
glyph write is blocked, the pad cell keeps its old content, and if the
glyph write succeeds and the pad cell is in bounds (on a rectangular
grid of height `h`), the pad cell receives the sentinel.  The
presentation-selector branch, by contrast, can write a pad with no
written glyph — see the counterexample. -/
theorem fullwidth_pad_iff_written (x y : Int) (h : Nat) (force : Bool) (role : Option Nat)
    (s : DrawState) (code : Nat) (hfw : isFullwidthChar code = true)
    (hrect : ∀ i, i < s.canvas.length → (s.canvas.getD i []).length = h) :
    (glyphWritable x y h force s = false →
      getCell (drawStep x y h force role s code).canvas (x + (s.offset + 1)).toNat y.toNat
        = getCell s.canvas (x + (s.offset + 1)).toNat y.toNat) ∧
    (glyphWritable x y h force s = true →
      inGrid s.canvas.length h (x + (s.offset + 1)) y = true →
      getCell (drawStep x y h force role s code).canvas (x + (s.offset + 1)).toNat y.toNat
        = CJK_PAD) := by
  have hsel : code ≠ 0xfe0f := fullwidth_ne_selector code hfw
  have hzw : isZeroWidth code = false := fullwidth_not_zeroWidth code hfw
  constructor
  · intro hw
    rw [drawStep_glyph_blocked x y h force role s code hsel hzw hw, if_pos hfw]
  · intro hw hpad
    rw [drawStep_glyph_written x y h force role s code hsel hzw hw, if_pos hfw]
    have hb := inGrid_true _ _ _ _ hpad
    unfold padAt
    have hlen : (setCell s.canvas (x + s.offset).toNat y.toNat [code]).length
        = s.canvas.length := setCell_length _ _ _ _
    rw [hlen, if_pos hpad]
    apply getCell_setCell_eq
    · rw [hlen]
      omega
    · rw [setCell_colLength _ _ _ _ _, hrect _ (by omega)]
      omega

/-- Witness for `fullwidth_pad_iff_written`: drawing `中` at the origin
of a blank 2×1 grid puts the pad sentinel in the second column. -/
theorem fullwidth_pad_iff_written_app :
    getCell (drawStep 0 0 1 false none
      (DrawState.mk [[blankCell], [blankCell]] none 0 (-1) false) 0x4e00).canvas 1 0
      = CJK_PAD := by
  have hrect : ∀ i, i < ([[blankCell], [blankCell]] : Canvas).length →
      (([[blankCell], [blankCell]] : Canvas).getD i []).length = 1 := by
    intro i hi
    have hi2 : i < 2 := hi
    interval_cases i <;> rfl
  have hthm := fullwidth_pad_iff_written 0 0 1 false none
    (DrawState.mk [[blankCell], [blankCell]] none 0 (-1) false) 0x4e00 (by decide) hrect
  exact hthm.2 (by decide) (by decide)

/-- C1 counterexample: a draw call whose text is only the presentation
selector writes a pad sentinel into the blank grid even though no glyph
cell was ever written by the call. -/
theorem pad_written_without_glyph_ce :
    (drawCJKText [[blankCell]] 0 0 [0xfe0f] false none none).canvas = [[CJK_PAD]] ∧
      CJK_PAD ≠ blankCell := by decide

/-- C2 (corrected): with `forceOverwrite` disabled, every cell holding
pre-existing non-blank content either keeps exactly that content or is
overwritten by the pad sentinel; glyph writes and the selector append
never touch it, but pad writes are unconditional and may. -/
theorem drawCJKText_preserves_nonblank (canvas : Canvas) (x y : Int) (text : List Nat)
    (roles : Option RoleCanvas) (role : Option Nat) (px py : Nat)
    (hp : getCell canvas px py ≠ blankCell) :
    getCell (drawCJKText canvas x y text false roles role).canvas px py
        = getCell canvas px py ∨
      getCell (drawCJKText canvas x y text false roles role).canvas px py = CJK_PAD :=
  (drawCJKText_noClobber canvas x y text roles role).1 px py hp

/-- Witness for `drawCJKText_preserves_nonblank`: drawing `A` over an
occupied cell with overwrite disabled. -/
theorem drawCJKText_preserves_nonblank_app :
    getCell (drawCJKText [[[0x58]], [blankCell]] 0 0 [0x41] false none none).canvas 0 0
        = getCell [[[0x58]], [blankCell]] 0 0 ∨
      getCell (drawCJKText [[[0x58]], [blankCell]] 0 0 [0x41] false none none).canvas 0 0
        = CJK_PAD :=
  drawCJKText_preserves_nonblank [[[0x58]], [blankCell]] 0 0 [0x41] none none 0 0 (by decide)

/-- C2 counterexample: with overwrite disabled, drawing `中` at column 0
writes its pad sentinel over the pre-existing `X` in column 1 — the pad
write carries no overwrite check. -/
theorem pad_overwrites_preexisting_ce :
    getCell [[blankCell], [[0x58]]] 1 0 ≠ blankCell ∧
      (drawCJKText [[blankCell], [[0x58]]] 0 0 [0x4e2d] false none none).canvas
        = [[[0x4e2d]], [CJK_PAD]] ∧
      CJK_PAD ≠ [0x58] := by decide

/-- C3 (corrected): with overwrite disabled, the selector upgrade never
appends the selector to a cell whose non-blank content pre-existed the
call — such a cell can only keep its content or become the pad sentinel,
never gain an attached selector. -/
theorem selector_no_append_preexisting (canvas : Canvas) (x y : Int) (text : List Nat)
    (roles : Option RoleCanvas) (role : Option Nat) (px py : Nat)
    (hp : getCell canvas px py ≠ blankCell) :
    getCell (drawCJKText canvas x y text false roles role).canvas px py
      ≠ getCell canvas px py ++ [0xfe0f] := by
  rcases (drawCJKText_noClobber canvas x y text roles role).1 px py hp with h1 | h1
  · rw [h1]
    intro he
    have hlen := congrArg List.length he
    simp only [List.length_append, List.length_cons, List.length_nil] at hlen
    omega
  · rw [h1]
    intro he
    have hlen := congrArg List.length he
    simp only [CJK_PAD, List.length_append, List.length_cons, List.length_nil] at hlen
    have hnil : getCell canvas px py = [] := by
      have hz : (getCell canvas px py).length = 0 := by omega
      exact List.length_eq_zero.mp hz
    rw [hnil] at he
    exact absurd he (by decide)

/-- Witness for `selector_no_append_preexisting`: a bare selector drawn
over an occupied 1×1 grid does not get appended to the occupant. -/
theorem selector_no_append_preexisting_app :
    getCell (drawCJKText [[[0x59]]] 0 0 [0xfe0f] false none none).canvas 0 0
      ≠ getCell [[[0x59]]] 0 0 ++ [0xfe0f] :=
  selector_no_append_preexisting [[[0x59]]] 0 0 [0xfe0f] none none 0 0 (by decide)

/-- C3 counterexample: processing the presentation selector does touch a
cell whose content pre-existed the call — its pad write overwrites the
occupied cell `Y` with the sentinel. -/
theorem selector_touches_preexisting_ce :
    getCell [[[0x59]]] 0 0 ≠ blankCell ∧
      (drawCJKText [[[0x59]]] 0 0 [0xfe0f] false none none).canvas = [[CJK_PAD]] ∧
      CJK_PAD ≠ [0x59] := by decide

/-- C7 (confirmed): when a fullwidth glyph's write is blocked (out of
bounds or stopped by the overwrite rule), the column offset still
advances by two, and neither grid is touched — in particular no pad
sentinel is written for that glyph. -/
theorem blocked_fullwidth_advances_two (x y : Int) (h : Nat) (force : Bool)
    (role : Option Nat) (s : DrawState) (code : Nat)
    (hfw : isFullwidthChar code = true) (hw : glyphWritable x y h force s = false) :
    (drawStep x y h force role s code).offset = s.offset + 2 ∧
      (drawStep x y h force role s code).canvas = s.canvas ∧
      (drawStep x y h force role s code).roles = s.roles := by
  have hsel : code ≠ 0xfe0f := fullwidth_ne_selector code hfw
  have hzw : isZeroWidth code = false := fullwidth_not_zeroWidth code hfw
  rw [drawStep_glyph_blocked x y h force role s code hsel hzw hw, if_pos hfw]
  exact ⟨rfl, rfl, rfl⟩

/-- Witness for `blocked_fullwidth_advances_two`: `中` blocked by an
occupied cell. -/
theorem blocked_fullwidth_advances_two_app :
    (drawStep 0 0 1 false none (DrawState.mk [[[0x58]]] none 0 (-1) false) 0x4e00).offset
        = 2 ∧
      (drawStep 0 0 1 false none (DrawState.mk [[[0x58]]] none 0 (-1) false) 0x4e00).canvas
        = [[[0x58]]] ∧
      (drawStep 0 0 1 false none (DrawState.mk [[[0x58]]] none 0 (-1) false) 0x4e00).roles
        = none :=
  blocked_fullwidth_advances_two 0 0 1 false none
    (DrawState.mk [[[0x58]]] none 0 (-1) false) 0x4e00 (by decide) (by decide)

/-- C8 (confirmed): `drawCJKText` is total and bounds-safe for every
input, including negative or oversized coordinates: the grid keeps its
exact dimensions, and when the whole row is off-grid the call is a
complete no-op on both grids. -/
theorem drawCJKText_bounds_safe (canvas : Canvas) (x y : Int) (text : List Nat)
    (force : Bool) (roles : Option RoleCanvas) (role : Option Nat) :
    (drawCJKText canvas x y text force roles role).canvas.length = canvas.length ∧
    (∀ i, ((drawCJKText canvas x y text force roles role).canvas.getD i []).length
      = (canvas.getD i []).length) ∧
    ((y < 0 ∨ ((canvas.headD []).length : Int) ≤ y) →
      (drawCJKText canvas x y text force roles role).canvas = canvas ∧
      (drawCJKText canvas x y text force roles role).roles = roles) := by
  unfold drawCJKText
  have hshape := @foldl_inv Nat DrawState
    (drawStep x y (canvas.headD []).length force role)
    (fun s => s.canvas.length = canvas.length ∧
      ∀ i, (s.canvas.getD i []).length = (canvas.getD i []).length)
    (fun s a hs =>
      ⟨(drawStep_shape x y (canvas.headD []).length force role s a).1.trans hs.1,
        fun i => ((drawStep_shape x y (canvas.headD []).length force role s a).2 i).trans
          (hs.2 i)⟩)
    text (DrawState.mk canvas roles 0 (-1) false) ⟨rfl, fun i => rfl⟩
  refine ⟨hshape.1, hshape.2, fun hy => ?_⟩
  exact @foldl_inv Nat DrawState
    (drawStep x y (canvas.headD []).length force role)
    (fun s => s.canvas = canvas ∧ s.roles = roles)
    (fun s a hs =>
      ⟨(drawStep_row_oob x y (canvas.headD []).length force role s a hy).1.trans hs.1,
        (drawStep_row_oob x y (canvas.headD []).length force role s a hy).2.trans hs.2⟩)
    text (DrawState.mk canvas roles 0 (-1) false) ⟨rfl, rfl⟩

/-- Witness for `drawCJKText_bounds_safe`: drawing at row 5 of a 1×1
grid is a no-op and keeps the dimensions. -/
theorem drawCJKText_bounds_safe_app :
    (drawCJKText [[blankCell]] 0 5 [0x41] false none none).canvas = [[blankCell]] ∧
      (drawCJKText [[blankCell]] 0 5 [0x41] false none none).canvas.length = 1 := by
  have hmain := drawCJKText_bounds_safe [[blankCell]] 0 5 [0x41] false none none
  exact ⟨(hmain.2.2 (by decide)).1, hmain.1⟩

/-- C9 (confirmed): `drawCJKText` mutates only cells of the row `y`: any
cell of the character grid or the role grid in a different row is left
unchanged. -/
theorem drawCJKText_row_frame (canvas : Canvas) (x y : Int) (text : List Nat)
    (force : Bool) (roles : Option RoleCanvas) (role : Option Nat) (px py : Nat)
    (hy : (py : Int) ≠ y) :
    getCell (drawCJKText canvas x y text force roles role).canvas px py
        = getCell canvas px py ∧
      ((drawCJKText canvas x y text force roles role).roles.map
          (fun rg => (rg.getD px []).getD py 0))
        = roles.map (fun rg => (rg.getD px []).getD py 0) := by
  unfold drawCJKText
  exact @foldl_inv Nat DrawState
    (drawStep x y (canvas.headD []).length force role)
    (fun s => getCell s.canvas px py = getCell canvas px py ∧
      (s.roles.map (fun rg => (rg.getD px []).getD py 0))
        = roles.map (fun rg => (rg.getD px []).getD py 0))
    (fun s a hs =>
      ⟨(drawStep_row_frame x y (canvas.headD []).length force role s a px py hy).1.trans
          hs.1,
        (drawStep_row_frame x y (canvas.headD []).length force role s a px py hy).2.trans
          hs.2⟩)
    text (DrawState.mk canvas roles 0 (-1) false) ⟨rfl, rfl⟩

/-- Witness for `drawCJKText_row_frame`: drawing at row 0 leaves row 1
of the same column untouched. -/
theorem drawCJKText_row_frame_app :
    getCell (drawCJKText [[blankCell, [0x5a]]] 0 0 [0x41] false none none).canvas 0 1
      = getCell [[blankCell, [0x5a]]] 0 1 :=
  (drawCJKText_row_frame [[blankCell, [0x5a]]] 0 0 [0x41] false none none 0 1
    (by decide)).1
